import Mathlib

/-!
Shallow embedding of `src/flaresolverr_middleware.rs` from the
forum-stream-library repository: the FlareSolverr interception middleware
(header cache, cookie translation, solve protocol, 403-retry pipeline),
together with proofs about its behaviour.
-/

set_option autoImplicit false

namespace ForumStream

/-- Outcome of running Rust code that may abort the process: `panic` models a
failing `unwrap()` (or any other panic), `ok` a normal return. -/
inductive PanicOr (α : Type) where
  | panic (msg : String)
  | ok (a : α)
deriving Repr, DecidableEq

/-! ### Header maps

`http::HeaderMap` normalises all header names to lower case, so the embedding
works with already-lower-cased string keys.  `insert` replaces the value at
the first occurrence of a name (keeping its position, as the real map does)
and drops any further occurrences; `entry(k).or_insert(v)` appends only when
the name is absent. -/

/-- Model of `http::HeaderMap`: an association list of (lower-cased header
name, value) pairs. -/
abbrev HeaderMap := List (String × String)

/-- Model of `HeaderMap::get`: the value at the first occurrence of the name. -/
def hGet : HeaderMap → String → Option String
  | [], _ => none
  | (k0, v0) :: rest, k => if k0 = k then some v0 else hGet rest k

/-- Model of `HeaderMap::contains_key`. -/
def hContains (m : HeaderMap) (k : String) : Bool :=
  m.any (fun p => p.1 == k)

/-- Drop every entry with the given name. -/
def removeKey : HeaderMap → String → HeaderMap
  | [], _ => []
  | (k0, v0) :: rest, k =>
    if k0 = k then removeKey rest k else (k0, v0) :: removeKey rest k

/-- Model of `HeaderMap::insert`: replace the value at the first occurrence of
the name in place and drop later occurrences, or append a fresh entry. -/
def hInsert : HeaderMap → String → String → HeaderMap
  | [], k, v => [(k, v)]
  | (k0, v0) :: rest, k, v =>
    if k0 = k then (k, v) :: removeKey rest k
    else (k0, v0) :: hInsert rest k v

/-- Model of `HeaderMap::entry(k).or_insert(v)`: insert only when absent. -/
def hOrInsert (m : HeaderMap) (k v : String) : HeaderMap :=
  if hContains m k then m else m ++ [(k, v)]

/-- Number of entries with the given name. -/
def keyCount : HeaderMap → String → Nat
  | [], _ => 0
  | (k0, _) :: rest, k => (if k0 = k then 1 else 0) + keyCount rest k

/-- Left-biased choice on options, used to state overlay results. -/
def oor {α : Type} (a b : Option α) : Option α :=
  match a with
  | some v => some v
  | none => b

/-- The header-overlay loop of `handle`
(`for (k, v) in real_h.iter() { h.insert(k, v.clone()); }`): every cached
entry is inserted into the request's headers, so a cached value replaces a
request-supplied one for the same name. -/
def overlay (reqH cached : HeaderMap) : HeaderMap :=
  cached.foldl (fun h p => hInsert h p.1 p.2) reqH

/-! ### JSON values

Model of `serde_json::Value`.  Numbers are restricted to integers; no claim
involves fractional JSON numbers. -/

inductive Json where
  | null
  | bool (b : Bool)
  | num (n : Int)
  | str (s : String)
  | arr (xs : List Json)
  | obj (fields : List (String × Json))

/-- First field of an object with the given key. -/
def lookupField : List (String × Json) → String → Option Json
  | [], _ => none
  | (k0, v) :: rest, k => if k0 = k then some v else lookupField rest k

/-- Model of `Value::get(key)`: `None` on non-objects. -/
def jGet : Json → String → Option Json
  | Json.obj fields, k => lookupField fields k
  | _, _ => none

/-- Model of `Value::as_array`. -/
def jAsArray : Json → Option (List Json)
  | Json.arr xs => some xs
  | _ => none

/-- Model of `Value::as_str`. -/
def jAsStr : Json → Option String
  | Json.str s => some s
  | _ => none

/-! ### Cookie data and `parse_cookie` -/

/-- Model of the `CookieData` struct (the serde target for one solved cookie).
The source field `_session` is embedded as `sessionF` (Lean reserves a single
leading underscore pattern in some positions). -/
structure CookieData where
  name : String
  value : String
  domain : String
  path : String
  expires : Option Int
  http_only : Bool
  secure : Bool
  sessionF : Bool
  same_site : Option String
deriving Repr, DecidableEq

/-- serde decoding of an `Option<f64>` field (restricted to integral values). -/
def decodeOptNum : Option Json → Option (Option Int)
  | none => some none
  | some Json.null => some none
  | some (Json.num n) => some (some n)
  | some _ => none

/-- serde decoding of a `#[serde(default)] bool` field. -/
def decodeDefBool : Option Json → Option Bool
  | none => some false
  | some (Json.bool b) => some b
  | some _ => none

/-- serde decoding of a `#[serde(default)] Option<String>` field. -/
def decodeOptStr : Option Json → Option (Option String)
  | none => some none
  | some Json.null => some none
  | some (Json.str s) => some (some s)
  | some _ => none

/-- serde decoding of a required `String` field. -/
def decodeStr (o : Option Json) : Option String :=
  o.bind jAsStr

/-- Model of `serde_json::from_value::<CookieData>`: requires an object with
string fields `name`, `value`, `domain`, `path`; the remaining fields are
optional/defaulted exactly as in the source struct (field names are the Rust
field names, since the struct carries no serde rename attribute). -/
def cookieDataOfJson (j : Json) : Option CookieData :=
  match j with
  | Json.obj _ =>
    match decodeStr (jGet j "name"), decodeStr (jGet j "value"),
        decodeStr (jGet j "domain"), decodeStr (jGet j "path"),
        decodeOptNum (jGet j "expires"), decodeDefBool (jGet j "http_only"),
        decodeDefBool (jGet j "secure"), decodeDefBool (jGet j "_session"),
        decodeOptStr (jGet j "same_site") with
    | some name, some value, some domain, some path, some expires,
      some http_only, some secure, some sessionF, some same_site =>
      some { name := name, value := value, domain := domain, path := path,
             expires := expires, http_only := http_only, secure := secure,
             sessionF := sessionF, same_site := same_site }
    | _, _, _, _, _, _, _, _, _ => none
  | _ => none

/-! ### Character-list string operations

The string operations the source uses (`take_while`-style scans, prefix
tests, splitting) are embedded on the underlying character lists, so that
concrete runs of the model reduce inside the kernel. -/

def sTakeWhile (p : Char → Bool) (s : String) : String :=
  String.mk (s.data.takeWhile p)

def sDropWhile (p : Char → Bool) (s : String) : String :=
  String.mk (s.data.dropWhile p)

def sAny (s : String) (p : Char → Bool) : Bool :=
  s.data.any p

def sAll (s : String) (p : Char → Bool) : Bool :=
  s.data.all p

def sDrop (s : String) (n : Nat) : String :=
  String.mk (s.data.drop n)

def sLength (s : String) : Nat :=
  s.data.length

/-- Prefix test on character lists (first argument is the candidate prefix). -/
def lPre : List Char → List Char → Bool
  | [], _ => true
  | _ :: _, [] => false
  | a :: as, b :: bs => a == b && lPre as bs

/-- Model of `str::starts_with`. -/
def sStarts (s pre : String) : Bool :=
  lPre pre.data s.data

/-- Split a character list on the two-character separator `"; "` (the
separator `toSetCookieString` joins attributes with). -/
def splitSemi : List Char → List (List Char)
  | [] => [[]]
  | ';' :: ' ' :: rest => [] :: splitSemi rest
  | c :: rest =>
    match splitSemi rest with
    | [] => [[c]]
    | g :: gs => (c :: g) :: gs

/-! ### RFC 2822 date formatting (model of `chrono`) -/

/-- Civil date (year, month, day) from days since 1970-01-01, modelling the
proleptic Gregorian calendar used by `chrono`. -/
def civilFromDays (z0 : Int) : Int × Int × Int :=
  let z := z0 + 719468
  let era := Int.fdiv z 146097
  let doe := z - era * 146097
  let yoe := Int.fdiv (doe - Int.fdiv doe 1460 + Int.fdiv doe 36524 - Int.fdiv doe 146096) 365
  let y := yoe + era * 400
  let doy := doe - (365 * yoe + Int.fdiv yoe 4 - Int.fdiv yoe 100)
  let mp := Int.fdiv (5 * doy + 2) 153
  let d := doy - Int.fdiv (153 * mp + 2) 5 + 1
  let m := mp + (if mp < 10 then 3 else -9)
  (y + (if m ≤ 2 then 1 else 0), m, d)

def weekdayName (w : Int) : String :=
  if w = 0 then "Sun" else if w = 1 then "Mon" else if w = 2 then "Tue"
  else if w = 3 then "Wed" else if w = 4 then "Thu" else if w = 5 then "Fri"
  else "Sat"

def monthName (m : Int) : String :=
  if m = 1 then "Jan" else if m = 2 then "Feb" else if m = 3 then "Mar"
  else if m = 4 then "Apr" else if m = 5 then "May" else if m = 6 then "Jun"
  else if m = 7 then "Jul" else if m = 8 then "Aug" else if m = 9 then "Sep"
  else if m = 10 then "Oct" else if m = 11 then "Nov" else "Dec"

def pad2 (n : Int) : String :=
  if n < 10 then "0" ++ toString n else toString n

def pad4 (n : Int) : String :=
  if n < 10 then "000" ++ toString n
  else if n < 100 then "00" ++ toString n
  else if n < 1000 then "0" ++ toString n
  else toString n

/-- Model of `chrono`'s `DateTime::to_rfc2822` on a UTC timestamp given in
whole seconds (e.g. `Wed, 21 Oct 2015 07:28:00 +0000`). -/
def rfc2822OfEpoch (secs : Int) : String :=
  let days := Int.fdiv secs 86400
  let sod := secs - 86400 * days
  let ymd := civilFromDays days
  let wd := Int.fmod (days + 4) 7
  weekdayName wd ++ ", " ++ pad2 ymd.2.2 ++ " " ++ monthName ymd.2.1 ++ " " ++
    pad4 ymd.1 ++ " " ++ pad2 (Int.fdiv sod 3600) ++ ":" ++
    pad2 (Int.fmod (Int.fdiv sod 60) 60) ++ ":" ++ pad2 (Int.fmod sod 60) ++ " +0000"

/-- Models the representable range of `chrono`'s `Utc.timestamp_opt` (seconds
between `NaiveDateTime::MIN` and `NaiveDateTime::MAX`); `timestamp_opt`
returns `None` outside it, which the source unwraps.  The exact bounds are
irrelevant to every claim. -/
def chronoTsOk (secs : Int) : Bool :=
  decide (-8334632851200 ≤ secs) && decide (secs ≤ 8210298412799)

/-! ### URL parsing (model of `reqwest::Url::parse`) -/

/-- Models `Url::parse("https://" ++ d)`: the parse succeeds when the
authority (the part of `d` before any `/`, `?` or `#`) is non-empty and free
of forbidden host characters; the parsed URL is kept in textual form. -/
def urlParse (d : String) : Option String :=
  let auth := sTakeWhile (fun c => c != '/' && c != '?' && c != '#') d
  if auth = "" then none
  else if sAny auth (fun c => c == ' ' || c == '\t' || c == '\n' || c == '\r' ||
      c == '<' || c == '>' || c == '[' || c == ']' || c == '^' ||
      c == '|' || c == '\\' || decide (c.toNat < 32)) then none
  else some ("https://" ++ d)

/-- The cookie string `parse_cookie` builds from decoded cookie data:
`name=value` plus `Path`, `Domain`, `Secure`, `HttpOnly`, `SameSite` and
`Expires` parts for the present fields, in source order. -/
def cookieStringOf (data : CookieData) : String :=
  let s0 := data.name ++ "=" ++ data.value
  let s1 := if data.path ≠ "" then s0 ++ "; Path=" ++ data.path else s0
  let s2 := if data.domain ≠ "" then s1 ++ "; Domain=" ++ data.domain else s1
  let s3 := if data.secure then s2 ++ "; Secure" else s2
  let s4 := if data.http_only then s3 ++ "; HttpOnly" else s3
  match data.same_site with
  | some ss => s4 ++ "; SameSite=" ++ ss
  | none => s4

/-- Final step of `parse_cookie`: the binding origin
`Url::parse("https://" ++ domain-with-leading-dots-trimmed).unwrap()`,
paired with the cookie string. -/
def parseCookieOrigin (data : CookieData) (s : String) : PanicOr (String × String) :=
  match urlParse (sDropWhile (fun c => c == '.') data.domain) with
  | none => PanicOr.panic "Url::parse unwrap"
  | some u => PanicOr.ok (s, u)

/-- Model of `FlaresolverrMiddleware::parse_cookie`.  Returns the cookie
string and the binding origin URL; `panic` models the source's `unwrap()`s on
serde decoding, on `chrono`'s timestamp conversion, and on `Url::parse`. -/
def parse_cookie (cookie : Json) : PanicOr (String × String) :=
  match cookieDataOfJson cookie with
  | none => PanicOr.panic "serde_json::from_value unwrap"
  | some data =>
    match data.expires with
    | some exp =>
      if chronoTsOk exp then
        parseCookieOrigin data (cookieStringOf data ++ "; Expires=" ++ rfc2822OfEpoch exp)
      else PanicOr.panic "timestamp_opt unwrap"
    | none => parseCookieOrigin data (cookieStringOf data)

/-! ### The shared cookie store (model of `reqwest::cookie::Jar`) -/

/-- One entry of the shared cookie store: the raw cookie string, the binding
origin URL, and the (name, domain, path) key under which the underlying
`cookie_store` crate files it. -/
structure JarEntry where
  name : String
  domain : String
  path : String
  cookieStr : String
  origin : String
deriving Repr, DecidableEq

/-- The (name, domain, path) key of a stored cookie. -/
def jarKey (e : JarEntry) : String × String × String :=
  (e.name, e.domain, e.path)

abbrev Jar := List JarEntry

/-- Drop every stored cookie with the given (name, domain, path) key. -/
def jarRemove : Jar → String × String × String → Jar
  | [], _ => []
  | x :: rest, k =>
    if jarKey x = k then jarRemove rest k else x :: jarRemove rest k

/-- Model of `Jar::add_cookie_str` at entry level: a later write for the same
(name, domain, path) key supersedes the earlier entry (the behaviour of the
`cookie_store` crate backing `reqwest::cookie::Jar`). -/
def jarAdd (j : Jar) (e : JarEntry) : Jar :=
  jarRemove j (jarKey e) ++ [e]

/-- The value of a `"; Name=..."` attribute inside a cookie string, if any. -/
def cookieAttr (s attr : String) : Option String :=
  (((splitSemi s.data).map String.mk).find? (fun p => sStarts p attr)).map
    (fun p => sDrop p (sLength attr))

/-- Host part of a textual `https://...` URL. -/
def originHost (origin : String) : String :=
  sTakeWhile (fun c => c != '/' && c != ':') (sDrop origin 8)

/-- The jar entry `Jar::add_cookie_str cookieStr origin` stores: the key name
is the part before `=`; the key domain comes from the `Domain` attribute
(leading dots normalised away, as the cookie RFC prescribes) or, absent that,
the origin host; the key path from the `Path` attribute or `/`. -/
def jarEntryOf (cookieStr origin : String) : JarEntry :=
  { name := sTakeWhile (fun c => c != '=') cookieStr,
    domain :=
      match cookieAttr cookieStr "Domain=" with
      | some d => sDropWhile (fun c => c == '.') d
      | none => originHost origin,
    path :=
      match cookieAttr cookieStr "Path=" with
      | some p => p
      | none => "/",
    cookieStr := cookieStr,
    origin := origin }

/-- Model of one `self.cookie_jar.add_cookie_str(parsed.0, &parsed.1)` call. -/
def jarAddStr (j : Jar) (cookieStr origin : String) : Jar :=
  jarAdd j (jarEntryOf cookieStr origin)

/-- The cookie loop of `resolve_cloudflare`
(`for c in cookies { parse_cookie; add_cookie_str }`): returns the jar after
the cookies added so far, and the panic message if some `parse_cookie`
unwrap fails part-way. -/
def addCookies : Jar → List Json → Jar × Option String
  | j, [] => (j, none)
  | j, c :: rest =>
    match parse_cookie c with
    | PanicOr.panic m => (j, some m)
    | PanicOr.ok sp => addCookies (jarAddStr j sp.1 sp.2) rest

/-! ### The middleware state and the solve protocol -/

/-- Model of the `FlaresolverrError` enum (source spelling kept, including
the unused `MissingResponseU` for `_MissingResponse` and the typo
`MIssingUA`). -/
inductive FlaresolverrError where
  | ConnectionProblem
  | MissingResponseU
  | MIssingUA
  | MissingSolution
  | MissingCookie
  | CookiesNotAnArray
deriving Repr, DecidableEq

/-- The mutable state a `FlaresolverrMiddleware` owns: the shared cookie jar
and the `RwLock<HeaderMap>` header cache. -/
structure MwState where
  jar : Jar
  headers : HeaderMap
deriving Repr, DecidableEq

/-- Behaviour of the external FlareSolverr service for one posted
`request.get` command: the POST may fail at transport level (`noConn`),
return a body that is not JSON (`badBody`), or return a parsed JSON value. -/
inductive SolverReply where
  | noConn
  | badBody
  | json (j : Json)

/-- The JSON body `resolve_cloudflare` posts to the FlareSolverr instance. -/
def solveRequestBody (url : String) : Json :=
  Json.obj [("cmd", Json.str "request.get"), ("url", Json.str url),
            ("maxTimeout", Json.num 60000)]

/-- Models `HeaderValue::from_str`: every byte must be horizontal tab or in
the visible range (32.. except 127); multi-byte UTF-8 continuation bytes are
all ≥ 128, hence always acceptable. -/
def headerValueOk (s : String) : Bool :=
  sAll s (fun c => c == '\t' || (decide (32 ≤ c.toNat) && c.toNat != 127))

def ACCEPT_DEFAULT : String :=
  "text/html,application/xhtml+xml,application/xml;q=0.9,*/*;q=0.8"

/-- The header-cache write block of `resolve_cloudflare`: always insert the
solved user-agent and the two `Sec-Fetch` markers; insert each of the five
default navigation headers only if absent. -/
def mergeHeaders (h : HeaderMap) (ua : String) : HeaderMap :=
  let h1 := hInsert h "user-agent" ua
  let h2 := hOrInsert h1 "accept" ACCEPT_DEFAULT
  let h3 := hOrInsert h2 "accept-language" "en-US,en;q=0.9"
  let h4 := hOrInsert h3 "accept-encoding" "gzip, deflate, br"
  let h5 := hOrInsert h4 "connection" "keep-alive"
  let h6 := hOrInsert h5 "referer" "https://example.com/"
  let h7 := hInsert h6 "sec-fetch-mode" "navigate"
  hInsert h7 "sec-fetch-site" "none"

/-- Model of `FlaresolverrMiddleware::resolve_cloudflare`.  Returns the state
after the call together with its outcome: a typed `FlaresolverrError`, a
normal return, or a panic (the source unwraps the response-body decode, each
cookie decode, a non-string `userAgent` and an invalid header value). -/
def resolve_cloudflare (st : MwState) (reply : SolverReply) (url : String) :
    MwState × PanicOr (Except FlaresolverrError Unit) :=
  let _posted := solveRequestBody url
  match reply with
  | SolverReply.noConn => (st, PanicOr.ok (Except.error FlaresolverrError.ConnectionProblem))
  | SolverReply.badBody => (st, PanicOr.panic "resp.json unwrap")
  | SolverReply.json j =>
    match jGet j "solution" with
    | none => (st, PanicOr.ok (Except.error FlaresolverrError.MissingSolution))
    | some sol =>
      match jGet sol "cookies" with
      | none => (st, PanicOr.ok (Except.error FlaresolverrError.MissingCookie))
      | some cks =>
        match jAsArray cks with
        | none => (st, PanicOr.ok (Except.error FlaresolverrError.CookiesNotAnArray))
        | some cookies =>
          match addCookies st.jar cookies with
          | (jar1, some m) => ({ st with jar := jar1 }, PanicOr.panic m)
          | (jar1, none) =>
            match jGet j "solution" with
            | none => ({ st with jar := jar1 },
                       PanicOr.ok (Except.error FlaresolverrError.MissingSolution))
            | some sol2 =>
              match jGet sol2 "userAgent" with
              | none => ({ st with jar := jar1 },
                         PanicOr.ok (Except.error FlaresolverrError.MIssingUA))
              | some uaJ =>
                match jAsStr uaJ with
                | none => ({ st with jar := jar1 }, PanicOr.panic "as_str unwrap")
                | some ua =>
                  if headerValueOk ua then
                    ({ jar := jar1, headers := mergeHeaders st.headers ua },
                     PanicOr.ok (Except.ok ()))
                  else ({ st with jar := jar1 },
                        PanicOr.panic "HeaderValue::from_str unwrap")

/-! ### The middleware pipeline (`handle`) and the constructor (`new`) -/

/-- An outbound `reqwest::Request`, as far as the middleware observes it:
URL, headers and whether `try_clone` succeeds (it fails exactly when the
body is a stream). -/
structure Request where
  url : String
  headers : HeaderMap
  bodyClonable : Bool
deriving Repr, DecidableEq

/-- A downstream response, as far as the middleware observes it: the status
code and an opaque tag distinguishing response values. -/
structure Response where
  status : Nat
  tag : Nat
deriving Repr, DecidableEq

/-- Opaque model of a `reqwest_middleware::Error` (or `reqwest::Error`). -/
structure TransportError where
  code : Nat
deriving Repr, DecidableEq

/-- The downstream dispatch chain: attempt index (0 = first dispatch,
1 = retry) and the request actually dispatched determine the outcome. -/
abbrev NextFn := Nat → Request → Except TransportError Response

/-- The request `handle` sends on its first dispatch: the incoming request
with the cached headers of `st` overlaid (cached values win). -/
def firstRequest (st : MwState) (req : Request) : Request :=
  { req with headers := overlay req.headers st.headers }

/-- Result of one `handle` call: final middleware state, the trace of
requests passed to `next` in order, and the outcome (a response, a
propagated transport error, or a panic). -/
structure HandleOut where
  state : MwState
  dispatched : List Request
  result : PanicOr (Except TransportError Response)

/-- Model of `FlaresolverrMiddleware::handle`.  Overlays cached headers onto
the request, panics if the request body is not clonable
(`try_clone().unwrap()`), dispatches, and on a 403 first response fires the
best-effort alert (no observable effect here), solves
(`resolve_cloudflare(..).unwrap()` — a solve error is a panic, not a typed
return), re-overlays the now-updated cache and redispatches exactly once,
returning the second response whatever its status. -/
def handle (st : MwState) (req : Request) (next : NextFn) (reply : SolverReply) :
    HandleOut :=
  let req1 := firstRequest st req
  if req.bodyClonable then
    match next 0 req1 with
    | Except.error e =>
      { state := st, dispatched := [req1], result := PanicOr.ok (Except.error e) }
    | Except.ok res =>
      if res.status = 403 then
        match resolve_cloudflare st reply req.url with
        | (st1, PanicOr.panic m) =>
          { state := st1, dispatched := [req1], result := PanicOr.panic m }
        | (st1, PanicOr.ok (Except.error _)) =>
          { state := st1, dispatched := [req1],
            result := PanicOr.panic "Result::unwrap on solve error" }
        | (st1, PanicOr.ok (Except.ok _)) =>
          let req2 := firstRequest st1 req1
          match next 1 req2 with
          | Except.error e =>
            { state := st1, dispatched := [req1, req2],
              result := PanicOr.ok (Except.error e) }
          | Except.ok res2 =>
            { state := st1, dispatched := [req1, req2],
              result := PanicOr.ok (Except.ok res2) }
      else { state := st, dispatched := [req1], result := PanicOr.ok (Except.ok res) }
  else { state := st, dispatched := [], result := PanicOr.panic "try_clone unwrap" }

/-- Behaviour of the solving service for the `sessions.list` diagnostic call
made by `new`: the POST may fail (swallowed by `if let Ok`), succeed with a
JSON body, or succeed with an undecodable body (the source unwraps it). -/
inductive SessionListReply where
  | sendFail
  | okBody (j : Json)
  | okBadBody

/-- Model of `FlaresolverrMiddleware::new`: fires the construction alert
(best-effort, no effect), posts `sessions.create` and propagates its
transport failure with `?`, then runs the best-effort `sessions.list`
(whose body decode can still panic), and returns the middleware state. -/
def new (jar0 : Jar) (createReply : Except TransportError Unit)
    (listReply : SessionListReply) : PanicOr (Except TransportError MwState) :=
  match createReply with
  | Except.error e => PanicOr.ok (Except.error e)
  | Except.ok _ =>
    match listReply with
    | SessionListReply.sendFail => PanicOr.ok (Except.ok { jar := jar0, headers := [] })
    | SessionListReply.okBody _ => PanicOr.ok (Except.ok { jar := jar0, headers := [] })
    | SessionListReply.okBadBody => PanicOr.panic "resp.json unwrap in list_sessions"

/-! ### Concrete example inputs used to evaluate the model -/

/-- A solved cookie as FlareSolverr returns it, with a leading-dot domain. -/
def exCookieJson : Json :=
  Json.obj [("name", Json.str "a"), ("value", Json.str "1"),
            ("domain", Json.str ".example.com"), ("path", Json.str "/")]

/-- A cookie whose domain carries two leading dots. -/
def exCookieJsonTwoDots : Json :=
  Json.obj [("name", Json.str "a"), ("value", Json.str "1"),
            ("domain", Json.str "..example.com"), ("path", Json.str "/")]

/-- A cookie whose domain is empty, hence unparsable as an HTTPS origin. -/
def exCookieJsonEmptyDomain : Json :=
  Json.obj [("name", Json.str "a"), ("value", Json.str "1"),
            ("domain", Json.str ""), ("path", Json.str "/")]

/-- The decoded form of `exCookieJson`. -/
def exCookieData : CookieData :=
  { name := "a", value := "1", domain := ".example.com", path := "/",
    expires := none, http_only := false, secure := false, sessionF := false,
    same_site := none }

/-- A well-formed solution object: one cookie and a user agent. -/
def exSolObj : Json :=
  Json.obj [("cookies", Json.arr [exCookieJson]), ("userAgent", Json.str "UA-X")]

/-- A well-formed solver reply body. -/
def exGoodJson : Json := Json.obj [("solution", exSolObj)]

def exGoodReply : SolverReply := SolverReply.json exGoodJson

/-- A solution object with cookies but no `userAgent` field. -/
def exSolObjNoUA : Json := Json.obj [("cookies", Json.arr [exCookieJson])]

/-- A solver reply whose solution has cookies but no `userAgent` field. -/
def exNoUAJson : Json := Json.obj [("solution", exSolObjNoUA)]

def exNoUAReply : SolverReply := SolverReply.json exNoUAJson

/-- A fresh middleware state: empty jar, empty header cache. -/
def exSt : MwState := { jar := [], headers := [] }

/-- A request with a pre-set Accept and User-Agent and a clonable body. -/
def exReq : Request :=
  { url := "https://target.example/",
    headers := [("accept", "text/plain"), ("user-agent", "old-agent")],
    bodyClonable := true }

/-- A downstream chain answering 403 on the first dispatch, 200 on the
retry. -/
def exNext : NextFn :=
  fun i _ => Except.ok { status := if i = 0 then 403 else 200, tag := i }

/-! ### Lemmas about the header-map operations -/

theorem oor_some {α : Type} (v : α) (b : Option α) : oor (some v) b = some v := rfl

theorem oor_none {α : Type} (b : Option α) : oor none b = b := rfl

theorem hGet_removeKey_ne (m : HeaderMap) (k k' : String) (h : k ≠ k') :
    hGet (removeKey m k) k' = hGet m k' := by
  induction m with
  | nil => rfl
  | cons p rest ih =>
    rcases p with ⟨k0, v0⟩
    by_cases h0 : k0 = k
    · subst h0
      simp [removeKey, hGet, h, ih]
    · by_cases h1 : k0 = k'
      · subst h1
        simp [removeKey, hGet, h0]
      · simp [removeKey, hGet, h0, h1, ih]

theorem hGet_removeKey_self (m : HeaderMap) (k : String) :
    hGet (removeKey m k) k = none := by
  induction m with
  | nil => rfl
  | cons p rest ih =>
    rcases p with ⟨k0, v0⟩
    by_cases h0 : k0 = k
    · simp [removeKey, h0, ih]
    · simp [removeKey, hGet, h0, ih]

theorem hGet_hInsert_self (m : HeaderMap) (k v : String) :
    hGet (hInsert m k v) k = some v := by
  induction m with
  | nil => simp [hInsert, hGet]
  | cons p rest ih =>
    rcases p with ⟨k0, v0⟩
    by_cases h0 : k0 = k
    · simp [hInsert, h0, hGet]
    · simp [hInsert, h0, hGet, ih]

theorem hGet_hInsert_ne (m : HeaderMap) (k v k' : String) (h : k ≠ k') :
    hGet (hInsert m k v) k' = hGet m k' := by
  induction m with
  | nil => simp [hInsert, hGet, h]
  | cons p rest ih =>
    rcases p with ⟨k0, v0⟩
    by_cases h0 : k0 = k
    · subst h0
      simp [hInsert, hGet, h, hGet_removeKey_ne rest k0 k' h]
    · by_cases h1 : k0 = k'
      · subst h1
        simp [hInsert, hGet, h0]
      · simp [hInsert, h0, hGet, h1, ih]

theorem hContains_eq_isSome (m : HeaderMap) (k : String) :
    hContains m k = (hGet m k).isSome := by
  induction m with
  | nil => rfl
  | cons p rest ih =>
    rcases p with ⟨k0, v0⟩
    by_cases h0 : k0 = k
    · simp [hContains, List.any, hGet, h0]
    · simp only [hContains, List.any] at ih ⊢
      simp [hGet, h0, ih]

theorem hGet_append (m m' : HeaderMap) (k : String) :
    hGet (m ++ m') k = oor (hGet m k) (hGet m' k) := by
  induction m with
  | nil => simp [hGet, oor]
  | cons p rest ih =>
    rcases p with ⟨k0, v0⟩
    by_cases h0 : k0 = k
    · simp [hGet, h0, oor]
    · simp [hGet, h0, ih]

theorem hOrInsert_of_isSome (m : HeaderMap) (k v : String)
    (h : (hGet m k).isSome = true) : hOrInsert m k v = m := by
  simp [hOrInsert, hContains_eq_isSome, h]

theorem hGet_hOrInsert_self (m : HeaderMap) (k v : String) :
    hGet (hOrInsert m k v) k = oor (hGet m k) (some v) := by
  unfold hOrInsert
  by_cases h : hContains m k = true
  · rw [if_pos h]
    rcases hv : hGet m k with _ | w
    · rw [hContains_eq_isSome m k, hv] at h
      simp at h
    · simp [hv, oor]
  · rw [if_neg h, hGet_append]
    rw [hContains_eq_isSome] at h
    rcases hv : hGet m k with _ | w
    · simp [oor, hGet]
    · rw [hv] at h
      simp at h

theorem hGet_hOrInsert_ne (m : HeaderMap) (k v k' : String) (h : k ≠ k') :
    hGet (hOrInsert m k v) k' = hGet m k' := by
  unfold hOrInsert
  by_cases hc : hContains m k = true
  · rw [if_pos hc]
  · rw [if_neg hc, hGet_append]
    have hone : hGet [(k, v)] k' = none := by simp [hGet, h]
    rw [hone]
    rcases hv : hGet m k' with _ | w
    · simp [oor]
    · simp [oor]

theorem keyCount_removeKey_self (m : HeaderMap) (k : String) :
    keyCount (removeKey m k) k = 0 := by
  induction m with
  | nil => rfl
  | cons p rest ih =>
    rcases p with ⟨k0, v0⟩
    by_cases h0 : k0 = k
    · simp [removeKey, h0, ih]
    · simp [removeKey, keyCount, h0, ih]

theorem keyCount_removeKey_ne (m : HeaderMap) (k k' : String) (h : k ≠ k') :
    keyCount (removeKey m k) k' = keyCount m k' := by
  induction m with
  | nil => rfl
  | cons p rest ih =>
    rcases p with ⟨k0, v0⟩
    by_cases h0 : k0 = k
    · subst h0
      simp [removeKey, keyCount, h, ih]
    · simp [removeKey, keyCount, h0, ih]

theorem keyCount_hInsert_self (m : HeaderMap) (k v : String) :
    keyCount (hInsert m k v) k = 1 := by
  induction m with
  | nil => simp [hInsert, keyCount]
  | cons p rest ih =>
    rcases p with ⟨k0, v0⟩
    by_cases h0 : k0 = k
    · simp [hInsert, h0, keyCount, keyCount_removeKey_self]
    · simp [hInsert, h0, keyCount, ih]

theorem keyCount_hInsert_ne (m : HeaderMap) (k v k' : String) (h : k ≠ k') :
    keyCount (hInsert m k v) k' = keyCount m k' := by
  induction m with
  | nil => simp [hInsert, keyCount, h]
  | cons p rest ih =>
    rcases p with ⟨k0, v0⟩
    by_cases h0 : k0 = k
    · subst h0
      simp [hInsert, keyCount, h, keyCount_removeKey_ne rest k0 k' h]
    · simp [hInsert, h0, keyCount, ih]

theorem keyCount_append (m m' : HeaderMap) (k : String) :
    keyCount (m ++ m') k = keyCount m k + keyCount m' k := by
  induction m with
  | nil => simp [keyCount]
  | cons p rest ih =>
    rcases p with ⟨k0, v0⟩
    simp [keyCount, ih, Nat.add_assoc]

theorem keyCount_hOrInsert_ne (m : HeaderMap) (k v k' : String) (h : k ≠ k') :
    keyCount (hOrInsert m k v) k' = keyCount m k' := by
  unfold hOrInsert
  by_cases hc : hContains m k = true
  · rw [if_pos hc]
  · rw [if_neg hc, keyCount_append]
    simp [keyCount, h]

theorem removeKey_of_keyCount_zero (m : HeaderMap) (k : String)
    (h : keyCount m k = 0) : removeKey m k = m := by
  induction m with
  | nil => rfl
  | cons p rest ih =>
    rcases p with ⟨k0, v0⟩
    by_cases h0 : k0 = k
    · simp [keyCount, h0] at h
    · have h' : keyCount rest k = 0 := by
        have := h
        simp [keyCount, h0] at this
        exact this
      simp [removeKey, h0, ih h']

/-- Inserting the value a map already holds exactly once is the identity. -/
theorem hInsert_of_keyCount_one (m : HeaderMap) (k v : String)
    (hget : hGet m k = some v) (hcount : keyCount m k = 1) : hInsert m k v = m := by
  induction m with
  | nil => simp [hGet] at hget
  | cons p rest ih =>
    rcases p with ⟨k0, v0⟩
    by_cases h0 : k0 = k
    · subst h0
      have hv : v0 = v := by simpa [hGet] using hget
      subst hv
      have h1 : keyCount rest k0 = 0 := by
        have := hcount
        simp [keyCount] at this
        omega
      simp [hInsert, removeKey_of_keyCount_zero rest k0 h1]
    · have hget' : hGet rest k = some v := by simpa [hGet, h0] using hget
      have hcount' : keyCount rest k = 1 := by
        have := hcount
        simp [keyCount, h0] at this
        exact this
      simp [hInsert, h0, ih hget' hcount']

theorem hGet_of_keys_not_mem (m : HeaderMap) (k : String)
    (h : k ∉ m.map Prod.fst) : hGet m k = none := by
  induction m with
  | nil => rfl
  | cons p rest ih =>
    rcases p with ⟨k0, v0⟩
    simp only [List.map_cons, List.mem_cons] at h
    push_neg at h
    have h0 : k0 ≠ k := fun he => h.1 he.symm
    simp [hGet, h0, ih h.2]

/-- The overlay of cached headers onto request headers: cached values win on
key collision, request values survive elsewhere. -/
theorem hGet_overlay (reqH cached : HeaderMap) (k : String)
    (hnd : (cached.map Prod.fst).Nodup) :
    hGet (overlay reqH cached) k = oor (hGet cached k) (hGet reqH k) := by
  induction cached generalizing reqH with
  | nil => simp [overlay, hGet, oor]
  | cons p rest ih =>
    rcases p with ⟨k0, v0⟩
    simp only [List.map_cons, List.nodup_cons] at hnd
    have hstep : overlay reqH ((k0, v0) :: rest) = overlay (hInsert reqH k0 v0) rest := rfl
    rw [hstep, ih (hInsert reqH k0 v0) hnd.2]
    by_cases h0 : k0 = k
    · subst h0
      have hcnone : hGet rest k0 = none := hGet_of_keys_not_mem rest k0 hnd.1
      rw [hcnone, oor_none, hGet_hInsert_self]
      simp [hGet, oor]
    · rw [hGet_hInsert_ne reqH k0 v0 k h0]
      simp [hGet, h0]

theorem oor_isSome {α : Type} (a : Option α) (v : α) :
    (oor a (some v)).isSome = true := by
  cases a <;> rfl

/-! ### Lemmas about the header-cache merge of a solve result -/

theorem mergeHeaders_get_ua (h : HeaderMap) (ua : String) :
    hGet (mergeHeaders h ua) "user-agent" = some ua := by
  unfold mergeHeaders
  rw [hGet_hInsert_ne _ _ _ _ (by decide), hGet_hInsert_ne _ _ _ _ (by decide),
      hGet_hOrInsert_ne _ _ _ _ (by decide), hGet_hOrInsert_ne _ _ _ _ (by decide),
      hGet_hOrInsert_ne _ _ _ _ (by decide), hGet_hOrInsert_ne _ _ _ _ (by decide),
      hGet_hOrInsert_ne _ _ _ _ (by decide), hGet_hInsert_self]

theorem mergeHeaders_count_ua (h : HeaderMap) (ua : String) :
    keyCount (mergeHeaders h ua) "user-agent" = 1 := by
  unfold mergeHeaders
  rw [keyCount_hInsert_ne _ _ _ _ (by decide), keyCount_hInsert_ne _ _ _ _ (by decide),
      keyCount_hOrInsert_ne _ _ _ _ (by decide), keyCount_hOrInsert_ne _ _ _ _ (by decide),
      keyCount_hOrInsert_ne _ _ _ _ (by decide), keyCount_hOrInsert_ne _ _ _ _ (by decide),
      keyCount_hOrInsert_ne _ _ _ _ (by decide), keyCount_hInsert_self]

theorem mergeHeaders_get_sfm (h : HeaderMap) (ua : String) :
    hGet (mergeHeaders h ua) "sec-fetch-mode" = some "navigate" := by
  unfold mergeHeaders
  rw [hGet_hInsert_ne _ _ _ _ (by decide), hGet_hInsert_self]

theorem mergeHeaders_count_sfm (h : HeaderMap) (ua : String) :
    keyCount (mergeHeaders h ua) "sec-fetch-mode" = 1 := by
  unfold mergeHeaders
  rw [keyCount_hInsert_ne _ _ _ _ (by decide), keyCount_hInsert_self]

theorem mergeHeaders_get_sfs (h : HeaderMap) (ua : String) :
    hGet (mergeHeaders h ua) "sec-fetch-site" = some "none" := by
  unfold mergeHeaders
  rw [hGet_hInsert_self]

theorem mergeHeaders_count_sfs (h : HeaderMap) (ua : String) :
    keyCount (mergeHeaders h ua) "sec-fetch-site" = 1 := by
  unfold mergeHeaders
  rw [keyCount_hInsert_self]

theorem mergeHeaders_get_accept (h : HeaderMap) (ua : String) :
    hGet (mergeHeaders h ua) "accept" = oor (hGet h "accept") (some ACCEPT_DEFAULT) := by
  unfold mergeHeaders
  rw [hGet_hInsert_ne _ _ _ _ (by decide), hGet_hInsert_ne _ _ _ _ (by decide),
      hGet_hOrInsert_ne _ _ _ _ (by decide), hGet_hOrInsert_ne _ _ _ _ (by decide),
      hGet_hOrInsert_ne _ _ _ _ (by decide), hGet_hOrInsert_ne _ _ _ _ (by decide),
      hGet_hOrInsert_self, hGet_hInsert_ne _ _ _ _ (by decide)]

theorem mergeHeaders_get_acceptLanguage (h : HeaderMap) (ua : String) :
    hGet (mergeHeaders h ua) "accept-language" =
      oor (hGet h "accept-language") (some "en-US,en;q=0.9") := by
  unfold mergeHeaders
  rw [hGet_hInsert_ne _ _ _ _ (by decide), hGet_hInsert_ne _ _ _ _ (by decide),
      hGet_hOrInsert_ne _ _ _ _ (by decide), hGet_hOrInsert_ne _ _ _ _ (by decide),
      hGet_hOrInsert_ne _ _ _ _ (by decide), hGet_hOrInsert_self,
      hGet_hOrInsert_ne _ _ _ _ (by decide), hGet_hInsert_ne _ _ _ _ (by decide)]

theorem mergeHeaders_get_acceptEncoding (h : HeaderMap) (ua : String) :
    hGet (mergeHeaders h ua) "accept-encoding" =
      oor (hGet h "accept-encoding") (some "gzip, deflate, br") := by
  unfold mergeHeaders
  rw [hGet_hInsert_ne _ _ _ _ (by decide), hGet_hInsert_ne _ _ _ _ (by decide),
      hGet_hOrInsert_ne _ _ _ _ (by decide), hGet_hOrInsert_ne _ _ _ _ (by decide),
      hGet_hOrInsert_self, hGet_hOrInsert_ne _ _ _ _ (by decide),
      hGet_hOrInsert_ne _ _ _ _ (by decide), hGet_hInsert_ne _ _ _ _ (by decide)]

theorem mergeHeaders_get_connection (h : HeaderMap) (ua : String) :
    hGet (mergeHeaders h ua) "connection" =
      oor (hGet h "connection") (some "keep-alive") := by
  unfold mergeHeaders
  rw [hGet_hInsert_ne _ _ _ _ (by decide), hGet_hInsert_ne _ _ _ _ (by decide),
      hGet_hOrInsert_ne _ _ _ _ (by decide), hGet_hOrInsert_self,
      hGet_hOrInsert_ne _ _ _ _ (by decide), hGet_hOrInsert_ne _ _ _ _ (by decide),
      hGet_hOrInsert_ne _ _ _ _ (by decide), hGet_hInsert_ne _ _ _ _ (by decide)]

theorem mergeHeaders_get_referer (h : HeaderMap) (ua : String) :
    hGet (mergeHeaders h ua) "referer" =
      oor (hGet h "referer") (some "https://example.com/") := by
  unfold mergeHeaders
  rw [hGet_hInsert_ne _ _ _ _ (by decide), hGet_hInsert_ne _ _ _ _ (by decide),
      hGet_hOrInsert_self, hGet_hOrInsert_ne _ _ _ _ (by decide),
      hGet_hOrInsert_ne _ _ _ _ (by decide), hGet_hOrInsert_ne _ _ _ _ (by decide),
      hGet_hOrInsert_ne _ _ _ _ (by decide), hGet_hInsert_ne _ _ _ _ (by decide)]

/-- A map that already carries exactly the headers a merge would write is left
untouched by that merge. -/
theorem mergeHeaders_fixed (M : HeaderMap) (ua : String)
    (gua : hGet M "user-agent" = some ua) (cua : keyCount M "user-agent" = 1)
    (gacc : (hGet M "accept").isSome = true)
    (gal : (hGet M "accept-language").isSome = true)
    (gae : (hGet M "accept-encoding").isSome = true)
    (gcn : (hGet M "connection").isSome = true)
    (grf : (hGet M "referer").isSome = true)
    (gsfm : hGet M "sec-fetch-mode" = some "navigate")
    (csfm : keyCount M "sec-fetch-mode" = 1)
    (gsfs : hGet M "sec-fetch-site" = some "none")
    (csfs : keyCount M "sec-fetch-site" = 1) :
    mergeHeaders M ua = M := by
  show (let h1 := hInsert M "user-agent" ua
        let h2 := hOrInsert h1 "accept" ACCEPT_DEFAULT
        let h3 := hOrInsert h2 "accept-language" "en-US,en;q=0.9"
        let h4 := hOrInsert h3 "accept-encoding" "gzip, deflate, br"
        let h5 := hOrInsert h4 "connection" "keep-alive"
        let h6 := hOrInsert h5 "referer" "https://example.com/"
        let h7 := hInsert h6 "sec-fetch-mode" "navigate"
        hInsert h7 "sec-fetch-site" "none") = M
  simp only []
  rw [hInsert_of_keyCount_one M _ _ gua cua,
      hOrInsert_of_isSome M _ _ gacc, hOrInsert_of_isSome M _ _ gal,
      hOrInsert_of_isSome M _ _ gae, hOrInsert_of_isSome M _ _ gcn,
      hOrInsert_of_isSome M _ _ grf,
      hInsert_of_keyCount_one M _ _ gsfm csfm,
      hInsert_of_keyCount_one M _ _ gsfs csfs]

/-- Merging the same solved user agent twice is idempotent on the header
cache. -/
theorem mergeHeaders_idem (h : HeaderMap) (ua : String) :
    mergeHeaders (mergeHeaders h ua) ua = mergeHeaders h ua := by
  refine mergeHeaders_fixed _ ua (mergeHeaders_get_ua h ua) (mergeHeaders_count_ua h ua)
    ?_ ?_ ?_ ?_ ?_ (mergeHeaders_get_sfm h ua) (mergeHeaders_count_sfm h ua)
    (mergeHeaders_get_sfs h ua) (mergeHeaders_count_sfs h ua)
  · rw [mergeHeaders_get_accept]; exact oor_isSome _ _
  · rw [mergeHeaders_get_acceptLanguage]; exact oor_isSome _ _
  · rw [mergeHeaders_get_acceptEncoding]; exact oor_isSome _ _
  · rw [mergeHeaders_get_connection]; exact oor_isSome _ _
  · rw [mergeHeaders_get_referer]; exact oor_isSome _ _



/-! ### Lemmas about the cookie store -/

theorem mem_map_jarKey_jarRemove (j : Jar) (k a : String × String × String)
    (h : a ∈ (jarRemove j k).map jarKey) : a ∈ j.map jarKey := by
  induction j with
  | nil => simp [jarRemove] at h
  | cons x rest ih =>
    by_cases hx : jarKey x = k
    · simp only [jarRemove, if_pos hx] at h
      simp [ih h]
    · simp only [jarRemove, if_neg hx, List.map_cons, List.mem_cons] at h
      rcases h with h | h
      · simp [h]
      · simp [ih h]

theorem jarKey_not_mem_jarRemove (j : Jar) (k : String × String × String) :
    k ∉ (jarRemove j k).map jarKey := by
  induction j with
  | nil => simp [jarRemove]
  | cons x rest ih =>
    by_cases hx : jarKey x = k
    · simpa [jarRemove, hx] using ih
    · simp only [jarRemove, if_neg hx, List.map_cons, List.mem_cons]
      push_neg
      exact ⟨fun he => hx he.symm, ih⟩

theorem nodup_jarRemove (j : Jar) (k : String × String × String)
    (h : (j.map jarKey).Nodup) : ((jarRemove j k).map jarKey).Nodup := by
  induction j with
  | nil => simp [jarRemove]
  | cons x rest ih =>
    simp only [List.map_cons, List.nodup_cons] at h
    by_cases hx : jarKey x = k
    · simp only [jarRemove, if_pos hx]
      exact ih h.2
    · simp only [jarRemove, if_neg hx, List.map_cons, List.nodup_cons]
      exact ⟨fun hm => h.1 (mem_map_jarKey_jarRemove rest k _ hm), ih h.2⟩

/-- Adding a cookie entry keeps the (name, domain, path) keys duplicate-free. -/
theorem nodup_jarAdd (j : Jar) (e : JarEntry)
    (h : (j.map jarKey).Nodup) : ((jarAdd j e).map jarKey).Nodup := by
  unfold jarAdd
  rw [List.map_append]
  rw [List.nodup_append]
  refine ⟨nodup_jarRemove j (jarKey e) h, by simp, ?_⟩
  intro a ha hb
  simp only [List.map_cons, List.map_nil, List.mem_singleton] at hb
  subst hb
  exact jarKey_not_mem_jarRemove j (jarKey e) ha

theorem jarKey_mem_jarAdd_self (j : Jar) (e : JarEntry) :
    jarKey e ∈ (jarAdd j e).map jarKey := by
  unfold jarAdd
  simp

theorem mem_map_jarKey_jarAdd (j : Jar) (e : JarEntry) (a : String × String × String)
    (h : a ∈ j.map jarKey) : a ∈ (jarAdd j e).map jarKey := by
  unfold jarAdd
  rw [List.map_append, List.mem_append]
  by_cases ha : a = jarKey e
  · right; simp [ha]
  · left
    induction j with
    | nil => simp at h
    | cons x rest ih =>
      simp only [List.map_cons, List.mem_cons] at h
      rcases h with h | h
      · subst h
        have hx : jarKey x ≠ jarKey e := ha
        simp [jarRemove, hx]
      · by_cases hx : jarKey x = jarKey e
        · simpa [jarRemove, hx] using ih h
        · simp only [jarRemove, if_neg hx, List.map_cons, List.mem_cons]
          right
          exact ih h

theorem nodup_addCookies (j : Jar) (cs : List Json)
    (h : (j.map jarKey).Nodup) : (((addCookies j cs).1).map jarKey).Nodup := by
  induction cs generalizing j with
  | nil => simpa [addCookies] using h
  | cons c rest ih =>
    unfold addCookies
    cases hp : parse_cookie c with
    | panic m => simpa using h
    | ok sp => exact ih _ (nodup_jarAdd j (jarEntryOf sp.1 sp.2) h)

theorem mem_addCookies_of_mem (j : Jar) (cs : List Json)
    (a : String × String × String) (h : a ∈ j.map jarKey) :
    a ∈ ((addCookies j cs).1).map jarKey := by
  induction cs generalizing j with
  | nil => simpa [addCookies] using h
  | cons c rest ih =>
    unfold addCookies
    cases hp : parse_cookie c with
    | panic m => simpa using h
    | ok sp => exact ih _ (mem_map_jarKey_jarAdd j _ a h)

/-- Every cookie the loop decodes ends up (under its key) in the final jar,
provided the loop runs to completion. -/
theorem key_mem_addCookies (j : Jar) (cs : List Json) (c : Json)
    (p : String × String) (hc : c ∈ cs) (hp : parse_cookie c = PanicOr.ok p)
    (hdone : (addCookies j cs).2 = none) :
    jarKey (jarEntryOf p.1 p.2) ∈ ((addCookies j cs).1).map jarKey := by
  induction cs generalizing j with
  | nil => simp at hc
  | cons c0 rest ih =>
    rcases List.mem_cons.mp hc with hc0 | hcr
    · subst hc0
      unfold addCookies at hdone ⊢
      rw [hp] at hdone ⊢
      exact mem_addCookies_of_mem _ rest _ (jarKey_mem_jarAdd_self j _)
    · unfold addCookies at hdone ⊢
      cases hp0 : parse_cookie c0 with
      | panic m =>
        rw [hp0] at hdone
        simp at hdone
      | ok sp0 =>
        rw [hp0] at hdone
        exact ih _ hcr hdone

/-! ### Behaviour of `resolve_cloudflare` on a well-formed solver reply -/

/-- On a reply whose solution carries a cookie array (all decodable) and a
valid string user agent, `resolve_cloudflare` adds all cookies to the jar and
merges the headers, returning `Ok(())`. -/
theorem resolve_cloudflare_ok (st : MwState) (url : String) (j sol : Json)
    (cs : List Json) (jar1 : Jar) (ua : String)
    (hsol : jGet j "solution" = some sol)
    (hcks : jGet sol "cookies" = some (Json.arr cs))
    (hadd : addCookies st.jar cs = (jar1, none))
    (hua : jGet sol "userAgent" = some (Json.str ua))
    (hok : headerValueOk ua = true) :
    resolve_cloudflare st (SolverReply.json j) url =
      ({ jar := jar1, headers := mergeHeaders st.headers ua },
       PanicOr.ok (Except.ok ())) := by
  simp only [resolve_cloudflare, hsol, hcks, jAsArray, hadd, hua, jAsStr, hok, if_true]

/-- Whether the cookie loop panics depends only on the cookie list, never on
the jar it starts from. -/
theorem addCookies_snd_indep (j j' : Jar) (cs : List Json) :
    (addCookies j cs).2 = (addCookies j' cs).2 := by
  induction cs generalizing j j' with
  | nil => rfl
  | cons c rest ih =>
    unfold addCookies
    cases parse_cookie c with
    | panic m => rfl
    | ok sp => exact ih _ _

theorem urlParse_some (d u : String) (h : urlParse d = some u) :
    u = "https://" ++ d := by
  simp only [urlParse] at h
  split_ifs at h
  exact (Option.some.inj h).symm

/-! ### The claims -/

/-- C1: the claim states that when the first dispatch returns 403 and the
solve attempt then fails (connection problem, missing field, undecodable
cookie), `handle` surfaces the solve error as a typed error value and never
aborts the process.  The code instead calls
`self.resolve_cloudflare(&mut req).await.unwrap()`, so every solve failure
panics (aborting the process); an undecodable cookie panics inside
`parse_cookie` before that.  This theorem evaluates the model at the three
failing inputs: solver unreachable, solver reply lacking `solution`, and a
non-object cookie entry. -/
theorem C1_solve_failure_panics :
    ((handle exSt { url := "https://t.example/", headers := [], bodyClonable := true }
        (fun _ _ => Except.ok { status := 403, tag := 0 }) SolverReply.noConn).result =
      PanicOr.panic "Result::unwrap on solve error") ∧
    ((handle exSt { url := "https://t.example/", headers := [], bodyClonable := true }
        (fun _ _ => Except.ok { status := 403, tag := 0 })
        (SolverReply.json (Json.obj []))).result =
      PanicOr.panic "Result::unwrap on solve error") ∧
    ((handle exSt { url := "https://t.example/", headers := [], bodyClonable := true }
        (fun _ _ => Except.ok { status := 403, tag := 0 })
        (SolverReply.json (Json.obj [("solution", Json.obj
          [("cookies", Json.arr [Json.null]), ("userAgent", Json.str "UA-X")])]))).result =
      PanicOr.panic "serde_json::from_value unwrap") :=
  ⟨rfl, rfl, rfl⟩

/-- C2: for every request entering `handle` (with a clonable body, so that the
code reaches the dispatch at all), the first dispatched request is the
incoming request with the cached header snapshot overlaid, and for every
header name the dispatched value is the cached value when the cache holds
that name, the request's own value otherwise. -/
theorem C2_first_dispatch_overlay (st : MwState) (req : Request) (next : NextFn)
    (reply : SolverReply) (k : String)
    (hclone : req.bodyClonable = true)
    (hnd : (st.headers.map Prod.fst).Nodup) :
    (handle st req next reply).dispatched.head? = some (firstRequest st req) ∧
    hGet (firstRequest st req).headers k = oor (hGet st.headers k) (hGet req.headers k) := by
  constructor
  · unfold handle
    simp only [hclone, eq_self_iff_true, if_true]
    split
    · rfl
    · split
      · split
        · rfl
        · rfl
        · split
          · rfl
          · rfl
      · rfl
  · exact hGet_overlay req.headers st.headers k hnd

theorem C2_witness :
    (handle exSt exReq exNext exGoodReply).dispatched.head? =
      some (firstRequest exSt exReq) ∧
    hGet (firstRequest exSt exReq).headers "accept" =
      oor (hGet exSt.headers "accept") (hGet exReq.headers "accept") :=
  C2_first_dispatch_overlay exSt exReq exNext exGoodReply "accept" rfl (by simp [exSt])

/-- C6 counterexample: the claim states a failing `sessions.create` call is
never propagated and construction still succeeds; in the code `new` forwards
the failure with `?`, so construction fails with that transport error. -/
theorem C6_counterexample :
    new [] (Except.error { code := 7 }) (SessionListReply.okBody Json.null) =
      PanicOr.ok (Except.error { code := 7 }) := rfl

/-- C6 amended: a `sessions.create` transport failure is propagated out of
`new` (construction fails with exactly that error), for every jar and every
behaviour of the follow-up `sessions.list` call. -/
theorem C6_amended (jar0 : Jar) (e : TransportError) (listReply : SessionListReply) :
    new jar0 (Except.error e) listReply = PanicOr.ok (Except.error e) := rfl

/-- C7: the claim states an uncloneable request body yields the typed error
`RequestNotRetryable`.  The code calls `req.try_clone().unwrap()` (and its
error enum has no such variant), so the model panics — before even the first
dispatch, since the clone is taken for the first `next.run` call. -/
theorem C7_unclonable_body_panics :
    handle exSt { url := "https://t.example/", headers := [], bodyClonable := false }
        exNext exGoodReply =
      { state := exSt, dispatched := [], result := PanicOr.panic "try_clone unwrap" } := rfl

/-- C8 counterexample: the claim states a single leading dot is stripped and
an unparsable domain yields the typed error `UrlParseError`.  With domain
`..example.com` the code (`trim_start_matches('.')`) strips BOTH dots,
binding to `https://example.com` where single-dot stripping would give
`https://.example.com`; and with an empty (unparsable) domain `parse_cookie`
panics on `Url::parse(..).unwrap()` instead of returning a typed error. -/
theorem C8_counterexample :
    parse_cookie exCookieJsonTwoDots =
      PanicOr.ok ("a=1; Path=/; Domain=..example.com", "https://example.com") ∧
    "https://example.com" ≠ "https://.example.com" ∧
    parse_cookie exCookieJsonEmptyDomain = PanicOr.panic "Url::parse unwrap" :=
  ⟨rfl, by decide, rfl⟩

/-- C8 amended: the binding origin strips ALL leading dots from the
descriptor's domain and constructs `https://<stripped domain>`; an
unparsable domain aborts via panic (there is no typed `UrlParseError`); a
descriptor with domain `.example.com` still binds to `https://example.com`. -/
theorem C8_amended :
    (∀ (c : Json) (data : CookieData), cookieDataOfJson c = some data →
      (data.expires = none ∨ ∃ e, data.expires = some e ∧ chronoTsOk e = true) →
      ∀ u, urlParse (sDropWhile (fun ch => ch == '.') data.domain) = some u →
      ∃ s, parse_cookie c =
        PanicOr.ok (s, "https://" ++ sDropWhile (fun ch => ch == '.') data.domain)) ∧
    (∀ (c : Json) (data : CookieData), cookieDataOfJson c = some data →
      urlParse (sDropWhile (fun ch => ch == '.') data.domain) = none →
      ∃ m, parse_cookie c = PanicOr.panic m) ∧
    parse_cookie exCookieJson =
      PanicOr.ok ("a=1; Path=/; Domain=.example.com", "https://example.com") := by
  refine ⟨?_, ?_, rfl⟩
  · intro c data hdec hexp u hurl
    refine ⟨?_, ?_⟩
    · exact (match data.expires with
        | some e => cookieStringOf data ++ "; Expires=" ++ rfc2822OfEpoch e
        | none => cookieStringOf data)
    · simp only [parse_cookie, hdec]
      rcases hexp with hnone | ⟨e, he, hts⟩
      · simp only [hnone, parseCookieOrigin, hurl]
        rw [urlParse_some _ _ hurl]
      · simp only [he, hts, if_true, parseCookieOrigin, hurl]
        rw [urlParse_some _ _ hurl]
  · intro c data hdec hurl
    simp only [parse_cookie, hdec]
    cases hexp : data.expires with
    | none =>
      refine ⟨"Url::parse unwrap", ?_⟩
      simp only [parseCookieOrigin, hurl]
    | some e =>
      by_cases hts : chronoTsOk e = true
      · refine ⟨"Url::parse unwrap", ?_⟩
        simp only [hts, if_true, parseCookieOrigin, hurl]
      · refine ⟨"timestamp_opt unwrap", ?_⟩
        show (if chronoTsOk e = true then
            parseCookieOrigin data (cookieStringOf data ++ "; Expires=" ++ rfc2822OfEpoch e)
          else PanicOr.panic "timestamp_opt unwrap") = PanicOr.panic "timestamp_opt unwrap"
        rw [if_neg hts]

theorem C8_witness :
    ∃ s, parse_cookie exCookieJson =
      PanicOr.ok (s, "https://" ++ sDropWhile (fun ch => ch == '.') exCookieData.domain) :=
  C8_amended.1 exCookieJson exCookieData rfl (Or.inl rfl) "https://example.com" rfl

/-- C3: a non-403 first response is returned unmodified with no solve, no
state change and no redispatch; a 403 first response followed by a
successful solve leads to exactly one redispatch carrying the re-overlaid
cached headers, and the second response is returned regardless of its
status — in particular also when it is 403 again (no condition is placed on
`r2.status`). -/
theorem C3_single_retry (st : MwState) (req : Request) (next : NextFn)
    (reply : SolverReply) (hclone : req.bodyClonable = true) :
    (∀ r, next 0 (firstRequest st req) = Except.ok r → r.status ≠ 403 →
      handle st req next reply =
        { state := st, dispatched := [firstRequest st req],
          result := PanicOr.ok (Except.ok r) }) ∧
    (∀ r st1 r2, next 0 (firstRequest st req) = Except.ok r → r.status = 403 →
      resolve_cloudflare st reply req.url = (st1, PanicOr.ok (Except.ok ())) →
      next 1 (firstRequest st1 (firstRequest st req)) = Except.ok r2 →
      handle st req next reply =
        { state := st1,
          dispatched := [firstRequest st req,
                         firstRequest st1 (firstRequest st req)],
          result := PanicOr.ok (Except.ok r2) }) := by
  constructor
  · intro r hnext hs
    unfold handle
    simp only [hclone, eq_self_iff_true, if_true, hnext]
    rw [if_neg hs]
  · intro r st1 r2 hnext hs hres hnext2
    unfold handle
    simp only [hclone, eq_self_iff_true, if_true, hnext, hs, hres, hnext2]

theorem C3_witness :
    handle exSt exReq exNext exGoodReply =
      { state := (resolve_cloudflare exSt exGoodReply exReq.url).1,
        dispatched := [firstRequest exSt exReq,
          firstRequest (resolve_cloudflare exSt exGoodReply exReq.url).1
            (firstRequest exSt exReq)],
        result := PanicOr.ok (Except.ok { status := 200, tag := 1 }) } :=
  (C3_single_retry exSt exReq exNext exGoodReply rfl).2
    { status := 403, tag := 0 } (resolve_cloudflare exSt exGoodReply exReq.url).1
    { status := 200, tag := 1 } rfl rfl rfl rfl

/-- C4: merging a successful solve result always sets `user-agent` to the
solved value and always sets the two `Sec-Fetch` markers (overwriting any
prior cached values — the results below do not depend on the prior cache),
while each of the five default navigation headers keeps its prior cached
value when present and gets the default only when absent; and every decoded
cookie of the result is in the shared cookie store afterwards. -/
theorem C4_merge_semantics (st : MwState) (url : String) (j sol : Json)
    (cs : List Json) (jar1 : Jar) (ua : String)
    (hsol : jGet j "solution" = some sol)
    (hcks : jGet sol "cookies" = some (Json.arr cs))
    (hadd : addCookies st.jar cs = (jar1, none))
    (hua : jGet sol "userAgent" = some (Json.str ua))
    (hok : headerValueOk ua = true) :
    ((resolve_cloudflare st (SolverReply.json j) url).1.headers =
      mergeHeaders st.headers ua) ∧
    hGet (mergeHeaders st.headers ua) "user-agent" = some ua ∧
    hGet (mergeHeaders st.headers ua) "sec-fetch-mode" = some "navigate" ∧
    hGet (mergeHeaders st.headers ua) "sec-fetch-site" = some "none" ∧
    hGet (mergeHeaders st.headers ua) "accept" =
      oor (hGet st.headers "accept") (some ACCEPT_DEFAULT) ∧
    hGet (mergeHeaders st.headers ua) "accept-language" =
      oor (hGet st.headers "accept-language") (some "en-US,en;q=0.9") ∧
    hGet (mergeHeaders st.headers ua) "accept-encoding" =
      oor (hGet st.headers "accept-encoding") (some "gzip, deflate, br") ∧
    hGet (mergeHeaders st.headers ua) "connection" =
      oor (hGet st.headers "connection") (some "keep-alive") ∧
    hGet (mergeHeaders st.headers ua) "referer" =
      oor (hGet st.headers "referer") (some "https://example.com/") ∧
    (resolve_cloudflare st (SolverReply.json j) url).1.jar = jar1 ∧
    (∀ c ∈ cs, ∀ p, parse_cookie c = PanicOr.ok p →
      jarKey (jarEntryOf p.1 p.2) ∈ jar1.map jarKey) := by
  have hres := resolve_cloudflare_ok st url j sol cs jar1 ua hsol hcks hadd hua hok
  refine ⟨by rw [hres], mergeHeaders_get_ua _ _, mergeHeaders_get_sfm _ _,
    mergeHeaders_get_sfs _ _, mergeHeaders_get_accept _ _,
    mergeHeaders_get_acceptLanguage _ _, mergeHeaders_get_acceptEncoding _ _,
    mergeHeaders_get_connection _ _, mergeHeaders_get_referer _ _,
    by rw [hres], ?_⟩
  intro c hc p hp
  have hmem := key_mem_addCookies st.jar cs c p hc hp (by rw [hadd])
  rw [hadd] at hmem
  exact hmem

theorem C4_witness :
    ((resolve_cloudflare exSt (SolverReply.json exGoodJson) "u").1.headers =
      mergeHeaders exSt.headers "UA-X") ∧
    hGet (mergeHeaders exSt.headers "UA-X") "user-agent" = some "UA-X" ∧
    hGet (mergeHeaders exSt.headers "UA-X") "sec-fetch-mode" = some "navigate" ∧
    hGet (mergeHeaders exSt.headers "UA-X") "sec-fetch-site" = some "none" ∧
    hGet (mergeHeaders exSt.headers "UA-X") "accept" =
      oor (hGet exSt.headers "accept") (some ACCEPT_DEFAULT) ∧
    hGet (mergeHeaders exSt.headers "UA-X") "accept-language" =
      oor (hGet exSt.headers "accept-language") (some "en-US,en;q=0.9") ∧
    hGet (mergeHeaders exSt.headers "UA-X") "accept-encoding" =
      oor (hGet exSt.headers "accept-encoding") (some "gzip, deflate, br") ∧
    hGet (mergeHeaders exSt.headers "UA-X") "connection" =
      oor (hGet exSt.headers "connection") (some "keep-alive") ∧
    hGet (mergeHeaders exSt.headers "UA-X") "referer" =
      oor (hGet exSt.headers "referer") (some "https://example.com/") ∧
    (resolve_cloudflare exSt (SolverReply.json exGoodJson) "u").1.jar =
      (addCookies exSt.jar [exCookieJson]).1 ∧
    (∀ c ∈ [exCookieJson], ∀ p : String × String, parse_cookie c = PanicOr.ok p →
      jarKey (jarEntryOf p.1 p.2) ∈ ((addCookies exSt.jar [exCookieJson]).1).map jarKey) :=
  C4_merge_semantics exSt "u" exGoodJson exSolObj [exCookieJson]
    (addCookies exSt.jar [exCookieJson]).1 "UA-X" rfl rfl rfl rfl rfl

/-- C5 counterexample: the claim states that a request carrying
`Accept: text/plain` still carries it on the redispatch after a solve into an
empty cache.  In the code the solve writes the Accept default into the empty
cache (insert-if-absent applies to the CACHE, which has no Accept), and the
re-overlay then overwrites the request's pre-set value with the cached
default: the redispatched request carries the default Accept, not
`text/plain`.  (The User-Agent half of the claim does hold: `old-agent`
becomes `UA-X`.) -/
theorem C5_counterexample :
    ((handle exSt exReq exNext exGoodReply).dispatched.map
        (fun r => hGet r.headers "accept")) =
      [some "text/plain", some ACCEPT_DEFAULT] ∧
    ACCEPT_DEFAULT ≠ "text/plain" ∧
    ((handle exSt exReq exNext exGoodReply).dispatched.map
        (fun r => hGet r.headers "user-agent")) =
      [some "old-agent", some "UA-X"] :=
  ⟨rfl, by decide, rfl⟩

/-- C5 amended: for a request with pre-set `Accept` and `User-Agent` headers
that gets a 403 and a successful solve into a previously empty header cache,
the redispatched request carries `Accept` set to the cache's freshly inserted
default value (the insert-if-absent policy applies to the header cache, and
on re-overlay every cached value — the defaults included — overwrites the
request-supplied one), while the pre-set `User-Agent` is replaced by the
solved user agent. -/
theorem C5_amended (st : MwState) (req : Request) (next : NextFn) (j sol : Json)
    (cs : List Json) (jar1 : Jar) (ua : String) (r : Response)
    (hclone : req.bodyClonable = true)
    (hempty : st.headers = [])
    (hnext : next 0 (firstRequest st req) = Except.ok r) (hs : r.status = 403)
    (hsol : jGet j "solution" = some sol)
    (hcks : jGet sol "cookies" = some (Json.arr cs))
    (hadd : addCookies st.jar cs = (jar1, none))
    (hua : jGet sol "userAgent" = some (Json.str ua))
    (hok : headerValueOk ua = true) :
    (handle st req next (SolverReply.json j)).dispatched =
      [firstRequest st req,
       firstRequest (resolve_cloudflare st (SolverReply.json j) req.url).1
         (firstRequest st req)] ∧
    hGet (firstRequest (resolve_cloudflare st (SolverReply.json j) req.url).1
        (firstRequest st req)).headers "accept" = some ACCEPT_DEFAULT ∧
    hGet (firstRequest (resolve_cloudflare st (SolverReply.json j) req.url).1
        (firstRequest st req)).headers "user-agent" = some ua := by
  have hres := resolve_cloudflare_ok st req.url j sol cs jar1 ua hsol hcks hadd hua hok
  have hmerge : mergeHeaders st.headers ua =
      [("user-agent", ua), ("accept", ACCEPT_DEFAULT),
       ("accept-language", "en-US,en;q=0.9"),
       ("accept-encoding", "gzip, deflate, br"), ("connection", "keep-alive"),
       ("referer", "https://example.com/"), ("sec-fetch-mode", "navigate"),
       ("sec-fetch-site", "none")] := by
    rw [hempty]
    rfl
  have hhead : (firstRequest (resolve_cloudflare st (SolverReply.json j) req.url).1
      (firstRequest st req)).headers =
      overlay (firstRequest st req).headers (mergeHeaders st.headers ua) := by
    rw [hres]
    rfl
  refine ⟨?_, ?_, ?_⟩
  · unfold handle
    simp only [hclone, eq_self_iff_true, if_true, hnext, hs, hres]
    split
    · rfl
    · rfl
  · rw [hhead, hmerge, hGet_overlay _ _ _ (by
      show (["user-agent", "accept", "accept-language", "accept-encoding",
        "connection", "referer", "sec-fetch-mode", "sec-fetch-site"] : List String).Nodup
      decide)]
    rfl
  · rw [hhead, hmerge, hGet_overlay _ _ _ (by
      show (["user-agent", "accept", "accept-language", "accept-encoding",
        "connection", "referer", "sec-fetch-mode", "sec-fetch-site"] : List String).Nodup
      decide)]
    rfl

theorem C5_witness :
    (handle exSt exReq exNext (SolverReply.json exGoodJson)).dispatched =
      [firstRequest exSt exReq,
       firstRequest (resolve_cloudflare exSt (SolverReply.json exGoodJson) exReq.url).1
         (firstRequest exSt exReq)] ∧
    hGet (firstRequest (resolve_cloudflare exSt (SolverReply.json exGoodJson) exReq.url).1
        (firstRequest exSt exReq)).headers "accept" = some ACCEPT_DEFAULT ∧
    hGet (firstRequest (resolve_cloudflare exSt (SolverReply.json exGoodJson) exReq.url).1
        (firstRequest exSt exReq)).headers "user-agent" = some "UA-X" :=
  C5_amended exSt exReq exNext exGoodJson exSolObj [exCookieJson]
    (addCookies exSt.jar [exCookieJson]).1 "UA-X" { status := 403, tag := 0 }
    rfl rfl rfl rfl rfl rfl rfl rfl rfl

/-- C9: merging the same solve result twice in succession is idempotent — the
second application leaves the header cache exactly as the first left it, and
the cookie store holds no duplicate entries for identical (name, domain,
path) keys. -/
theorem C9_merge_idempotent (st : MwState) (url : String) (j sol : Json)
    (cs : List Json) (jar1 : Jar) (ua : String)
    (hsol : jGet j "solution" = some sol)
    (hcks : jGet sol "cookies" = some (Json.arr cs))
    (hadd : addCookies st.jar cs = (jar1, none))
    (hua : jGet sol "userAgent" = some (Json.str ua))
    (hok : headerValueOk ua = true)
    (hnd : (st.jar.map jarKey).Nodup) :
    ((resolve_cloudflare (resolve_cloudflare st (SolverReply.json j) url).1
        (SolverReply.json j) url).1.headers =
      (resolve_cloudflare st (SolverReply.json j) url).1.headers) ∧
    (((resolve_cloudflare (resolve_cloudflare st (SolverReply.json j) url).1
        (SolverReply.json j) url).1.jar.map jarKey).Nodup) := by
  have hres1 := resolve_cloudflare_ok st url j sol cs jar1 ua hsol hcks hadd hua hok
  rcases hE : addCookies jar1 cs with ⟨jar2, r2⟩
  have hr2 : r2 = none := by
    have hind := addCookies_snd_indep jar1 st.jar cs
    rw [hE, hadd] at hind
    exact hind
  subst hr2
  have hres2 := resolve_cloudflare_ok
    { jar := jar1, headers := mergeHeaders st.headers ua } url j sol cs jar2 ua
    hsol hcks hE hua hok
  have hnd1 : (jar1.map jarKey).Nodup := by
    have hstep := nodup_addCookies st.jar cs hnd
    rw [hadd] at hstep
    exact hstep
  have hnd2 : (jar2.map jarKey).Nodup := by
    have hstep := nodup_addCookies jar1 cs hnd1
    rw [hE] at hstep
    exact hstep
  simp only [hres1]
  simp only [hres2]
  exact ⟨mergeHeaders_idem st.headers ua, hnd2⟩

theorem C9_witness :
    ((resolve_cloudflare (resolve_cloudflare exSt (SolverReply.json exGoodJson) "u").1
        (SolverReply.json exGoodJson) "u").1.headers =
      (resolve_cloudflare exSt (SolverReply.json exGoodJson) "u").1.headers) ∧
    (((resolve_cloudflare (resolve_cloudflare exSt (SolverReply.json exGoodJson) "u").1
        (SolverReply.json exGoodJson) "u").1.jar.map jarKey).Nodup) :=
  C9_merge_idempotent exSt "u" exGoodJson exSolObj [exCookieJson]
    (addCookies exSt.jar [exCookieJson]).1 "UA-X" rfl rfl rfl rfl rfl (by simp [exSt])

/-- C10 (implicit): the solve error path is not atomic with respect to the
cookie store — on a reply whose solution carries a well-formed (fully
decodable) cookie array but no `userAgent` field, `resolve_cloudflare` fails
with the missing-user-agent error, yet by then every decoded cookie has
already been added to the shared jar (and the header cache is untouched). -/
theorem C10_failed_solve_mutates_jar (st : MwState) (url : String) (j sol : Json)
    (cs : List Json) (jar1 : Jar)
    (hsol : jGet j "solution" = some sol)
    (hcks : jGet sol "cookies" = some (Json.arr cs))
    (hadd : addCookies st.jar cs = (jar1, none))
    (hnoua : jGet sol "userAgent" = none) :
    resolve_cloudflare st (SolverReply.json j) url =
      ({ jar := jar1, headers := st.headers },
       PanicOr.ok (Except.error FlaresolverrError.MIssingUA)) ∧
    (∀ c ∈ cs, ∀ p, parse_cookie c = PanicOr.ok p →
      jarKey (jarEntryOf p.1 p.2) ∈ jar1.map jarKey) := by
  constructor
  · simp only [resolve_cloudflare, hsol, hcks, jAsArray, hadd, hnoua]
  · intro c hc p hp
    have hmem := key_mem_addCookies st.jar cs c p hc hp (by rw [hadd])
    rw [hadd] at hmem
    exact hmem

theorem C10_witness :
    resolve_cloudflare exSt (SolverReply.json exNoUAJson) "u" =
      ({ jar := (addCookies exSt.jar [exCookieJson]).1, headers := exSt.headers },
       PanicOr.ok (Except.error FlaresolverrError.MIssingUA)) ∧
    (∀ c ∈ [exCookieJson], ∀ p : String × String, parse_cookie c = PanicOr.ok p →
      jarKey (jarEntryOf p.1 p.2) ∈ ((addCookies exSt.jar [exCookieJson]).1).map jarKey) :=
  C10_failed_solve_mutates_jar exSt "u" exNoUAJson exSolObjNoUA [exCookieJson]
    (addCookies exSt.jar [exCookieJson]).1 rfl rfl rfl rfl
